import Mathlib

/-
Verification of the deepseek-api client library (deepseek_api/deepseek_api.py).

The library holds two near-identical classes, AsyncDeepseekAPI and
SyncDeepseekAPI, each with login, get_models and send_message.  We embed
the Python logic shallowly: JSON values are an inductive type, Python
dicts are association lists with insert-or-replace update, the network
helpers imported from deepseek_api/utils.py (get_session_id,
get_auth_token, get_cookies) are abstracted as an oracle, and the
credential file is a three-state value (absent, unparseable, or a JSON
value).  Python exceptions surface as explicit result constructors.
-/

namespace DeepseekApi

/-- JSON values, the common currency of the client: header values set by
login, cached credential records produced by json.loads, chat turns and
request payloads. -/
inductive Json where
  | null : Json
  | bool : Bool → Json
  | num : Int → Json
  | str : String → Json
  | arr : List Json → Json
  | obj : List (String × Json) → Json
deriving Repr

/-- Python dict read, d.get(k) / d[k] lookup on an association list. -/
def getKey : List (String × Json) → String → Option Json
  | [], _ => none
  | (k0, v0) :: rest, k => if k0 = k then some v0 else getKey rest k

/-- Python dict write, d[k] = v: replace the value in place if the key is
present, else append the new entry. -/
def setKey : List (String × Json) → String → Json → List (String × Json)
  | [], k, v => [(k, v)]
  | (k0, v0) :: rest, k, v =>
      if k0 = k then (k0, v) :: rest else (k0, v0) :: setKey rest k v

/-- Python truthiness of an optional string: None and the empty string are
falsy, used for the tests on self.api_key, self.email and self.password. -/
def truthy : Option String → Bool
  | none => false
  | some s => !s.isEmpty

/-- State of the credential file at self.credentials_path: missing, present
but not valid JSON, or present with a parsed JSON value. -/
inductive FileState where
  | absent : FileState
  | invalid : FileState
  | json : Json → FileState
deriving Repr

/-- The mutable attributes of a DeepseekAPI instance that the claims
observe: construction-time configuration, the header dict, the credential
file, self.credentials, self.chat_headers and self.chat_history. -/
structure ClientState where
  email : Option String
  password : Option String
  apiKey : Option String
  base_url : String
  headers : List (String × Json)
  credentialsFile : FileState
  credentials : Option Json
  chatHeaders : Option (List (String × Json))
  chatHistory : List Json
deriving Repr

/-- Responses of the three login network helpers from deepseek_api/utils.py
(get_session_id, get_auth_token, get_cookies), abstracted as an oracle;
the claims only count these calls and use their results. -/
structure NetOracle where
  sessionId : String
  authToken : String → String → String → String
  cookie : String → String

/-- Outcome of login: normal return or the ValueError raised when email or
password is missing. -/
inductive LoginRes where
  | ok : LoginRes
  | valueError : String → LoginRes
deriving Repr, DecidableEq

/-- Observable output of one login call: its result, the state afterwards,
how many of the three network helpers ran, and the diagnostics printed. -/
structure LoginOut where
  res : LoginRes
  state : ClientState
  netCalls : Nat
  logs : List String
deriving Repr

/-- The three-field credential record the fresh-login path builds and
saves. -/
structure Credentials where
  session_id : String
  auth_token : String
  cookie : String
deriving Repr, DecidableEq

/-- The dict literal of deepseek_api.py lines 69-73: the record written to
the credential file after a fresh login. -/
def credsToJson (c : Credentials) : Json :=
  Json.obj [("session_id", Json.str c.session_id),
            ("auth_token", Json.str c.auth_token),
            ("cookie", Json.str c.cookie)]

/-- Modelled from the spec: one event frame of the server-sent-events style
response body consumed by process_stream_response (a helper defined in
deepseek_api/utils.py, which is not part of the provided sources).  The
spec distinguishes empty frames, keep-alive pings, frames that fail to
parse as JSON, the sentinel termination frame, and valid JSON frames. -/
inductive Frame where
  | empty : Frame
  | keepAlive : Frame
  | malformed : Frame
  | sentinel : Frame
  | valid : Json → Frame
deriving Repr

/-- Modelled from the spec: process_stream_response from
deepseek_api/utils.py (not in the provided sources) turns the sequence of
frames into the sequence of parsed JSON payloads, skipping empty,
keep-alive and malformed frames and terminating at the sentinel frame. -/
def process_stream_response : List Frame → List Json
  | [] => []
  | Frame.sentinel :: _ => []
  | Frame.valid j :: rest => j :: process_stream_response rest
  | Frame.empty :: rest => process_stream_response rest
  | Frame.keepAlive :: rest => process_stream_response rest
  | Frame.malformed :: rest => process_stream_response rest

/-- The subscript chain response_json["choices"][0]["message"]["content"]
of send_message; none models the KeyError / IndexError / TypeError raised
when the reply does not have that shape. -/
def extractContent (reply : Json) : Option Json :=
  match reply with
  | Json.obj fields =>
      match getKey fields "choices" with
      | some (Json.arr (c0 :: _)) =>
          match c0 with
          | Json.obj f2 =>
              match getKey f2 "message" with
              | some (Json.obj f3) => getKey f3 "content"
              | _ => none
          | _ => none
      | _ => none
  | _ => none

/-- Result of send_message: the parsed reply object on a non-streamed
send, the decoded frame sequence on a streamed send, or the uncaught
exception when the non-streamed reply lacks the expected shape. -/
inductive SendRes where
  | reply : Json → SendRes
  | stream : List Json → SendRes
  | shapeError : SendRes
deriving Repr

/-- Observable output of one send_message call: its result, the request
payload posted to /api/chat/send, the request URL, and the state
afterwards. -/
structure SendOut where
  res : SendRes
  payload : Json
  url : String
  state : ClientState
deriving Repr

/-- Observable output of one get_models call: the request it issues and
the parsed reply it returns. -/
structure GetModelsOut where
  method : String
  url : String
  reqHeaders : List (String × Json)
  res : Json
deriving Repr

namespace AsyncDeepseekAPI

/-- Lines 58-75 of AsyncDeepseekAPI.login: the precondition check on email
and password followed by the three-step network flow, header updates and
credential save. -/
def freshLogin (net : NetOracle) (s : ClientState) : LoginOut :=
  if !truthy s.email || !truthy s.password then
    { res := LoginRes.valueError "Email and password are required for login.",
      state := s, netCalls := 0, logs := [] }
  else
    let sid := net.sessionId
    let h1 := setKey s.headers "Cookie" (Json.str ("session-id=" ++ sid))
    let tok := net.authToken (s.email.getD "") (s.password.getD "") sid
    let h2 := setKey h1 "Authorization" (Json.str ("Bearer " ++ tok))
    let ck := net.cookie tok
    let h3 := setKey h2 "Cookie" (Json.str ck)
    let creds := credsToJson { session_id := sid, auth_token := tok, cookie := ck }
    { res := LoginRes.ok,
      state := { s with headers := h3, credentials := some creds,
                        credentialsFile := FileState.json creds },
      netCalls := 3, logs := [] }

/-- AsyncDeepseekAPI.login (lines 42-75): API-key short circuit, then the
cached-credentials attempt whose broad except clause swallows both parse
failures and the AttributeError from calling .get on a non-dict value,
then the fresh login. -/
def login (net : NetOracle) (s : ClientState) : LoginOut :=
  if truthy s.apiKey then
    let h := setKey s.headers "Authorization" (Json.str ("Bearer " ++ s.apiKey.getD ""))
    { res := LoginRes.ok, state := { s with headers := h }, netCalls := 0, logs := [] }
  else
    match s.credentialsFile with
    | FileState.absent => freshLogin net s
    | FileState.invalid =>
        let out := freshLogin net s
        { out with logs := "Error loading credentials: JSONDecodeError" :: out.logs }
    | FileState.json j =>
        match j with
        | Json.obj fields =>
            let h := setKey s.headers "Cookie" ((getKey fields "cookie").getD Json.null)
            { res := LoginRes.ok,
              state := { s with credentials := some j, headers := h },
              netCalls := 0, logs := [] }
        | _ =>
            let out := freshLogin net { s with credentials := some j }
            { out with logs := "Error loading credentials: AttributeError" :: out.logs }

/-- AsyncDeepseekAPI.get_models (lines 77-82): a GET of base_url/api/models
with the current headers, returning the parsed reply supplied by the
remote service (abstracted as the modelsReply argument). -/
def get_models (modelsReply : Json) (s : ClientState) : GetModelsOut :=
  { method := "GET", url := s.base_url ++ "/api/models",
    reqHeaders := s.headers, res := modelsReply }

/-- AsyncDeepseekAPI.send_message (lines 84-112): lazily computes
chat_headers from the current headers, builds the payload dict with the
kwargs merged last, posts it, and on a non-streamed send appends the user
turn and then the assistant turn extracted from the reply.  The remote
reply is the reply argument for the non-streamed case and the frames
argument for the streamed case. -/
def send_message (reply : Json) (frames : List Frame) (message : String)
    (model : String) (stream : Bool) (kwargs : List (String × Json))
    (s : ClientState) : SendOut :=
  let chatHeaders :=
    match s.chatHeaders with
    | some h => h
    | none =>
        setKey (setKey s.headers "Accept" (Json.str "text/event-stream"))
          "Content-Type" (Json.str "application/json")
  let payload := kwargs.foldl (fun d p => setKey d p.1 p.2)
    [("message", Json.str message),
     ("stream", Json.bool stream),
     ("model_class",
       Json.str (if model = "deepseek-chat" then "deepseek_chat" else "deepseek_code")),
     ("chat_history", Json.arr s.chatHistory)]
  let url := s.base_url ++ "/api/chat/send"
  let s1 := { s with chatHeaders := some chatHeaders }
  if stream then
    { res := SendRes.stream (process_stream_response frames),
      payload := Json.obj payload, url := url, state := s1 }
  else
    match extractContent reply with
    | some c =>
        let hist := s1.chatHistory
          ++ [Json.obj [("role", Json.str "user"), ("content", Json.str message)],
              Json.obj [("role", Json.str "assistant"), ("content", c)]]
        { res := SendRes.reply reply, payload := Json.obj payload, url := url,
          state := { s1 with chatHistory := hist } }
    | none =>
        let hist := s1.chatHistory
          ++ [Json.obj [("role", Json.str "user"), ("content", Json.str message)]]
        { res := SendRes.shapeError, payload := Json.obj payload, url := url,
          state := { s1 with chatHistory := hist } }

end AsyncDeepseekAPI

namespace SyncDeepseekAPI

/-- Lines 158-175 of SyncDeepseekAPI.login: the precondition check on email
and password followed by the three-step network flow, header updates and
credential save. -/
def freshLogin (net : NetOracle) (s : ClientState) : LoginOut :=
  if !truthy s.email || !truthy s.password then
    { res := LoginRes.valueError "Email and password are required for login.",
      state := s, netCalls := 0, logs := [] }
  else
    let sid := net.sessionId
    let h1 := setKey s.headers "Cookie" (Json.str ("session-id=" ++ sid))
    let tok := net.authToken (s.email.getD "") (s.password.getD "") sid
    let h2 := setKey h1 "Authorization" (Json.str ("Bearer " ++ tok))
    let ck := net.cookie tok
    let h3 := setKey h2 "Cookie" (Json.str ck)
    let creds := credsToJson { session_id := sid, auth_token := tok, cookie := ck }
    { res := LoginRes.ok,
      state := { s with headers := h3, credentials := some creds,
                        credentialsFile := FileState.json creds },
      netCalls := 3, logs := [] }

/-- SyncDeepseekAPI.login (lines 142-175): API-key short circuit, then the
cached-credentials attempt whose broad except clause swallows both parse
failures and the AttributeError from calling .get on a non-dict value,
then the fresh login. -/
def login (net : NetOracle) (s : ClientState) : LoginOut :=
  if truthy s.apiKey then
    let h := setKey s.headers "Authorization" (Json.str ("Bearer " ++ s.apiKey.getD ""))
    { res := LoginRes.ok, state := { s with headers := h }, netCalls := 0, logs := [] }
  else
    match s.credentialsFile with
    | FileState.absent => freshLogin net s
    | FileState.invalid =>
        let out := freshLogin net s
        { out with logs := "Error loading credentials: JSONDecodeError" :: out.logs }
    | FileState.json j =>
        match j with
        | Json.obj fields =>
            let h := setKey s.headers "Cookie" ((getKey fields "cookie").getD Json.null)
            { res := LoginRes.ok,
              state := { s with credentials := some j, headers := h },
              netCalls := 0, logs := [] }
        | _ =>
            let out := freshLogin net { s with credentials := some j }
            { out with logs := "Error loading credentials: AttributeError" :: out.logs }

/-- SyncDeepseekAPI.get_models (lines 177-181): a GET of base_url/api/models
with the current headers, returning the parsed reply supplied by the
remote service (abstracted as the modelsReply argument). -/
def get_models (modelsReply : Json) (s : ClientState) : GetModelsOut :=
  { method := "GET", url := s.base_url ++ "/api/models",
    reqHeaders := s.headers, res := modelsReply }

/-- SyncDeepseekAPI.send_message (lines 183-211): lazily computes
chat_headers from the current headers, builds the payload dict with the
kwargs merged last, posts it, and on a non-streamed send appends the user
turn and then the assistant turn extracted from the reply.  The remote
reply is the reply argument for the non-streamed case and the frames
argument for the streamed case. -/
def send_message (reply : Json) (frames : List Frame) (message : String)
    (model : String) (stream : Bool) (kwargs : List (String × Json))
    (s : ClientState) : SendOut :=
  let chatHeaders :=
    match s.chatHeaders with
    | some h => h
    | none =>
        setKey (setKey s.headers "Accept" (Json.str "text/event-stream"))
          "Content-Type" (Json.str "application/json")
  let payload := kwargs.foldl (fun d p => setKey d p.1 p.2)
    [("message", Json.str message),
     ("stream", Json.bool stream),
     ("model_class",
       Json.str (if model = "deepseek-chat" then "deepseek_chat" else "deepseek_code")),
     ("chat_history", Json.arr s.chatHistory)]
  let url := s.base_url ++ "/api/chat/send"
  let s1 := { s with chatHeaders := some chatHeaders }
  if stream then
    { res := SendRes.stream (process_stream_response frames),
      payload := Json.obj payload, url := url, state := s1 }
  else
    match extractContent reply with
    | some c =>
        let hist := s1.chatHistory
          ++ [Json.obj [("role", Json.str "user"), ("content", Json.str message)],
              Json.obj [("role", Json.str "assistant"), ("content", c)]]
        { res := SendRes.reply reply, payload := Json.obj payload, url := url,
          state := { s1 with chatHistory := hist } }
    | none =>
        let hist := s1.chatHistory
          ++ [Json.obj [("role", Json.str "user"), ("content", Json.str message)]]
        { res := SendRes.shapeError, payload := Json.obj payload, url := url,
          state := { s1 with chatHistory := hist } }

end SyncDeepseekAPI

/-- The whole-file overwrite performed at the end of a fresh login
(json.dumps of the credentials dict written to self.credentials_path). -/
def saveCredentials (c : Credentials) : FileState :=
  FileState.json (credsToJson c)

/-- The cache read at the start of login: json.loads of the file content,
none when the file is missing or does not parse. -/
def loadCredentialsFile : FileState → Option Json
  | FileState.json j => some j
  | _ => none

/-- Reading the three fields of a cached record back out of its JSON form
by key lookup, as the login and save paths address them. -/
def credsFromJson (j : Json) : Option Credentials :=
  match j with
  | Json.obj fields =>
      match getKey fields "session_id", getKey fields "auth_token",
            getKey fields "cookie" with
      | some (Json.str a), some (Json.str b), some (Json.str c) =>
          some { session_id := a, auth_token := b, cookie := c }
      | _, _, _ => none
  | _ => none

/-- A credential file state that the cached-credentials branch of login
actually consumes: the file exists, parses, and the parsed value is a
dict (so that .get succeeds).  Field presence is not part of this test,
mirroring the code. -/
def cacheUsable : FileState → Bool
  | FileState.json (Json.obj _) => true
  | _ => false

/-- One public operation of the facade, with the remote responses it will
receive supplied as data. -/
inductive Op where
  | doLogin : Op
  | doGetModels : Json → Op
  | doSend : Json → List Frame → String → String → Bool → List (String × Json) → Op

/-- The observable outcome of one operation: everything a caller or the
network sees, without the private state. -/
inductive Obs where
  | ofLogin : LoginRes → Nat → List String → Obs
  | ofModels : String → String → List (String × Json) → Json → Obs
  | ofSend : SendRes → Json → String → Obs
deriving Repr

namespace AsyncDeepseekAPI

/-- Dispatch of one operation on the non-blocking facade, returning its
observable outcome and the successor state. -/
def runOp (net : NetOracle) (s : ClientState) : Op → Obs × ClientState
  | Op.doLogin =>
      let out := login net s
      (Obs.ofLogin out.res out.netCalls out.logs, out.state)
  | Op.doGetModels reply =>
      let out := get_models reply s
      (Obs.ofModels out.method out.url out.reqHeaders out.res, s)
  | Op.doSend reply frames message model stream kwargs =>
      let out := send_message reply frames message model stream kwargs s
      (Obs.ofSend out.res out.payload out.url, out.state)

/-- A sequence of operations on the non-blocking facade and the trace of
their observable outcomes. -/
def runOps (net : NetOracle) (s : ClientState) : List Op → List Obs × ClientState
  | [] => ([], s)
  | op :: rest =>
      let p := runOp net s op
      let q := runOps net p.2 rest
      (p.1 :: q.1, q.2)

end AsyncDeepseekAPI

namespace SyncDeepseekAPI

/-- Dispatch of one operation on the blocking facade, returning its
observable outcome and the successor state. -/
def runOp (net : NetOracle) (s : ClientState) : Op → Obs × ClientState
  | Op.doLogin =>
      let out := login net s
      (Obs.ofLogin out.res out.netCalls out.logs, out.state)
  | Op.doGetModels reply =>
      let out := get_models reply s
      (Obs.ofModels out.method out.url out.reqHeaders out.res, s)
  | Op.doSend reply frames message model stream kwargs =>
      let out := send_message reply frames message model stream kwargs s
      (Obs.ofSend out.res out.payload out.url, out.state)

/-- A sequence of operations on the blocking facade and the trace of their
observable outcomes. -/
def runOps (net : NetOracle) (s : ClientState) : List Op → List Obs × ClientState
  | [] => ([], s)
  | op :: rest =>
      let p := runOp net s op
      let q := runOps net p.2 rest
      (p.1 :: q.1, q.2)

end SyncDeepseekAPI

/-- Frames that carry a payload the decoder yields. -/
def frameJson : Frame → Option Json
  | Frame.valid j => some j
  | _ => none

/-- The sentinel termination test on one frame. -/
def isSentinel : Frame → Bool
  | Frame.sentinel => true
  | _ => false

/-- A fixed network oracle used for concrete evaluations. -/
def net0 : NetOracle :=
  { sessionId := "sid0", authToken := fun _ _ _ => "tok0", cookie := fun _ => "ck0" }

/-- A freshly constructed client: email and password configured, no API
key, no credential file, one pre-existing base header. -/
def baseState : ClientState :=
  { email := some "user@example.com", password := some "pw",
    apiKey := none, base_url := "https://chat.deepseek.com",
    headers := [("User-Agent", Json.str "ua")],
    credentialsFile := FileState.absent, credentials := none,
    chatHeaders := none, chatHistory := [] }

/-- A client configured with the static API key "K". -/
def sApiKey : ClientState := { baseState with apiKey := some "K" }

/-- A client with a cached credential file holding all three fields. -/
def sCached : ClientState :=
  { baseState with credentialsFile := FileState.json (Json.obj
      [("session_id", Json.str "sid"), ("auth_token", Json.str "tok"),
       ("cookie", Json.str "ck")]) }

/-- A client whose cached credential file parses as a JSON object but
lacks the cookie field. -/
def sMissingField : ClientState :=
  { baseState with credentialsFile := FileState.json (Json.obj
      [("session_id", Json.str "sid"), ("auth_token", Json.str "tok")]) }

/-- A client with no password configured and no credential file. -/
def sNoPassword : ClientState := { baseState with password := none }

/-- A client whose credential file exists but is not valid JSON. -/
def sCorrupt : ClientState := { baseState with credentialsFile := FileState.invalid }

theorem getKey_setKey_self (d : List (String × Json)) (k : String) (v : Json) :
    getKey (setKey d k v) k = some v := by
  induction d with
  | nil => simp [setKey, getKey]
  | cons p rest ih =>
      by_cases h : p.1 = k
      · simp [setKey, getKey, h]
      · simp [setKey, getKey, h, ih]

theorem getKey_setKey_ne (d : List (String × Json)) (k k' : String) (v : Json)
    (h : k' ≠ k) : getKey (setKey d k v) k' = getKey d k' := by
  induction d with
  | nil => simp [setKey, getKey, Ne.symm h]
  | cons p rest ih =>
      by_cases hp : p.1 = k
      · simp [setKey, getKey, hp, Ne.symm h]
      · by_cases hp' : p.1 = k'
        · simp [setKey, getKey, hp, hp', h]
        · simp [setKey, getKey, hp, hp', ih]

theorem truthy_some_ne (k : String) (h : k ≠ "") : truthy (some k) = true := by
  have hb : k.isEmpty = false := by
    cases hb : k.isEmpty
    · rfl
    · exact absurd ((String.isEmpty_iff k).mp hb) h
  simp [truthy, hb]

theorem freshLogin_missing (net : NetOracle) (s : ClientState)
    (hmiss : truthy s.email = false ∨ truthy s.password = false) :
    AsyncDeepseekAPI.freshLogin net s =
      { res := LoginRes.valueError "Email and password are required for login.",
        state := s, netCalls := 0, logs := [] } := by
  have hc : (!truthy s.email || !truthy s.password) = true := by
    rcases hmiss with h | h <;> simp [h]
  simp [AsyncDeepseekAPI.freshLogin, hc]

/-- C1: with a non-empty static api_key configured, login returns
normally, performs zero network calls, sets the Authorization header to
exactly "Bearer " followed by the key, leaves every other header
unchanged, and never touches the credential file. -/
theorem login_with_api_key (net : NetOracle) (s : ClientState) (k : String)
    (hk : s.apiKey = some k) (hne : k ≠ "") :
    (AsyncDeepseekAPI.login net s).res = LoginRes.ok ∧
    (AsyncDeepseekAPI.login net s).netCalls = 0 ∧
    getKey (AsyncDeepseekAPI.login net s).state.headers "Authorization"
      = some (Json.str ("Bearer " ++ k)) ∧
    (∀ h, h ≠ "Authorization" →
      getKey (AsyncDeepseekAPI.login net s).state.headers h = getKey s.headers h) ∧
    (AsyncDeepseekAPI.login net s).state.credentialsFile = s.credentialsFile := by
  have ht : truthy (some k) = true := truthy_some_ne k hne
  refine ⟨?_, ?_, ?_, ?_, ?_⟩
  · simp [AsyncDeepseekAPI.login, hk, ht]
  · simp [AsyncDeepseekAPI.login, hk, ht]
  · simp [AsyncDeepseekAPI.login, hk, ht, getKey_setKey_self]
  · intro h hh
    simp [AsyncDeepseekAPI.login, hk, ht, getKey_setKey_ne _ _ _ _ hh]
  · simp [AsyncDeepseekAPI.login, hk, ht]

/-- C1 witness: the theorem applied to the concrete client sApiKey. -/
theorem login_with_api_key_witness :
    (AsyncDeepseekAPI.login net0 sApiKey).res = LoginRes.ok ∧
    (AsyncDeepseekAPI.login net0 sApiKey).netCalls = 0 ∧
    getKey (AsyncDeepseekAPI.login net0 sApiKey).state.headers "Authorization"
      = some (Json.str ("Bearer " ++ "K")) ∧
    getKey (AsyncDeepseekAPI.login net0 sApiKey).state.headers "User-Agent"
      = getKey sApiKey.headers "User-Agent" ∧
    (AsyncDeepseekAPI.login net0 sApiKey).state.credentialsFile
      = sApiKey.credentialsFile := by
  obtain ⟨h1, h2, h3, h4, h5⟩ := login_with_api_key net0 sApiKey "K" rfl (by decide)
  exact ⟨h1, h2, h3, h4 "User-Agent" (by decide), h5⟩

/-- C2: with no api_key and a credential file that parses to a JSON object
whose cookie field holds v, login returns normally, performs zero network
calls, sets the Cookie header to v, and leaves the Authorization header
and every other header unchanged. -/
theorem login_with_cached_credentials (net : NetOracle) (s : ClientState)
    (fields : List (String × Json)) (v : Json)
    (hapi : truthy s.apiKey = false)
    (hfile : s.credentialsFile = FileState.json (Json.obj fields))
    (hcookie : getKey fields "cookie" = some v) :
    (AsyncDeepseekAPI.login net s).res = LoginRes.ok ∧
    (AsyncDeepseekAPI.login net s).netCalls = 0 ∧
    getKey (AsyncDeepseekAPI.login net s).state.headers "Cookie" = some v ∧
    getKey (AsyncDeepseekAPI.login net s).state.headers "Authorization"
      = getKey s.headers "Authorization" ∧
    (∀ h, h ≠ "Cookie" →
      getKey (AsyncDeepseekAPI.login net s).state.headers h = getKey s.headers h) := by
  refine ⟨?_, ?_, ?_, ?_, ?_⟩
  · simp [AsyncDeepseekAPI.login, hapi, hfile]
  · simp [AsyncDeepseekAPI.login, hapi, hfile]
  · simp [AsyncDeepseekAPI.login, hapi, hfile, hcookie, getKey_setKey_self]
  · simp [AsyncDeepseekAPI.login, hapi, hfile,
      getKey_setKey_ne _ _ _ _ (by decide : "Authorization" ≠ "Cookie")]
  · intro h hh
    simp [AsyncDeepseekAPI.login, hapi, hfile, getKey_setKey_ne _ _ _ _ hh]

/-- C2 witness: the theorem applied to the concrete client sCached. -/
theorem login_with_cached_credentials_witness :
    (AsyncDeepseekAPI.login net0 sCached).res = LoginRes.ok ∧
    (AsyncDeepseekAPI.login net0 sCached).netCalls = 0 ∧
    getKey (AsyncDeepseekAPI.login net0 sCached).state.headers "Cookie"
      = some (Json.str "ck") ∧
    getKey (AsyncDeepseekAPI.login net0 sCached).state.headers "Authorization"
      = getKey sCached.headers "Authorization" := by
  obtain ⟨h1, h2, h3, h4, -⟩ := login_with_cached_credentials net0 sCached
    [("session_id", Json.str "sid"), ("auth_token", Json.str "tok"),
     ("cookie", Json.str "ck")] (Json.str "ck") rfl rfl rfl
  exact ⟨h1, h2, h3, h4⟩

/-- C3: with no api_key, no usable credential file, and email or password
missing, login raises the ValueError with zero network calls and the
headers untouched. -/
theorem login_missing_credentials (net : NetOracle) (s : ClientState)
    (hapi : truthy s.apiKey = false)
    (hcache : cacheUsable s.credentialsFile = false)
    (hmiss : truthy s.email = false ∨ truthy s.password = false) :
    (AsyncDeepseekAPI.login net s).res
      = LoginRes.valueError "Email and password are required for login." ∧
    (AsyncDeepseekAPI.login net s).netCalls = 0 ∧
    (AsyncDeepseekAPI.login net s).state.headers = s.headers := by
  cases hcf : s.credentialsFile with
  | absent => simp [AsyncDeepseekAPI.login, hapi, hcf, freshLogin_missing, hmiss]
  | invalid => simp [AsyncDeepseekAPI.login, hapi, hcf, freshLogin_missing, hmiss]
  | json j =>
      cases j with
      | obj fields => rw [hcf] at hcache; simp [cacheUsable] at hcache
      | null => simp [AsyncDeepseekAPI.login, hapi, hcf, freshLogin_missing, hmiss]
      | bool b => simp [AsyncDeepseekAPI.login, hapi, hcf, freshLogin_missing, hmiss]
      | num n => simp [AsyncDeepseekAPI.login, hapi, hcf, freshLogin_missing, hmiss]
      | str a => simp [AsyncDeepseekAPI.login, hapi, hcf, freshLogin_missing, hmiss]
      | arr xs => simp [AsyncDeepseekAPI.login, hapi, hcf, freshLogin_missing, hmiss]

/-- C3 witness: the theorem applied to the concrete client sNoPassword. -/
theorem login_missing_credentials_witness :
    (AsyncDeepseekAPI.login net0 sNoPassword).res
      = LoginRes.valueError "Email and password are required for login." ∧
    (AsyncDeepseekAPI.login net0 sNoPassword).netCalls = 0 ∧
    (AsyncDeepseekAPI.login net0 sNoPassword).state.headers = sNoPassword.headers :=
  login_missing_credentials net0 sNoPassword rfl rfl (Or.inr rfl)

/-- C5: when the credential file exists but its content is not valid JSON,
login does not raise from the cache load: it prints one diagnostic and
otherwise behaves exactly as the fresh-login path on the same state,
which itself ends in the ValueError only when email or password is
missing. -/
theorem login_corrupt_cache (net : NetOracle) (s : ClientState)
    (hapi : truthy s.apiKey = false)
    (hfile : s.credentialsFile = FileState.invalid) :
    (AsyncDeepseekAPI.login net s).res = (AsyncDeepseekAPI.freshLogin net s).res ∧
    (AsyncDeepseekAPI.login net s).state = (AsyncDeepseekAPI.freshLogin net s).state ∧
    (AsyncDeepseekAPI.login net s).netCalls = (AsyncDeepseekAPI.freshLogin net s).netCalls ∧
    (AsyncDeepseekAPI.login net s).logs
      = "Error loading credentials: JSONDecodeError" :: (AsyncDeepseekAPI.freshLogin net s).logs := by
  simp [AsyncDeepseekAPI.login, hapi, hfile]

/-- C5 witness: the theorem applied to the concrete client sCorrupt. -/
theorem login_corrupt_cache_witness :
    (AsyncDeepseekAPI.login net0 sCorrupt).res = (AsyncDeepseekAPI.freshLogin net0 sCorrupt).res ∧
    (AsyncDeepseekAPI.login net0 sCorrupt).state = (AsyncDeepseekAPI.freshLogin net0 sCorrupt).state ∧
    (AsyncDeepseekAPI.login net0 sCorrupt).netCalls = (AsyncDeepseekAPI.freshLogin net0 sCorrupt).netCalls ∧
    (AsyncDeepseekAPI.login net0 sCorrupt).logs
      = "Error loading credentials: JSONDecodeError" :: (AsyncDeepseekAPI.freshLogin net0 sCorrupt).logs :=
  login_corrupt_cache net0 sCorrupt rfl rfl

/-- C6 counterexample: on a cached record that parses as a JSON object but
lacks the cookie field, login is not the fresh login the claim promises:
it consumes the record, sets the Cookie header to null and performs zero
network calls, while the fresh login on the same state would perform
three. -/
theorem login_missing_field_counterexample :
    (AsyncDeepseekAPI.login net0 sMissingField).netCalls = 0 ∧
    getKey (AsyncDeepseekAPI.login net0 sMissingField).state.headers "Cookie"
      = some Json.null ∧
    (AsyncDeepseekAPI.freshLogin net0 sMissingField).netCalls = 3 ∧
    AsyncDeepseekAPI.login net0 sMissingField ≠ AsyncDeepseekAPI.freshLogin net0 sMissingField := by
  have h1 : (AsyncDeepseekAPI.login net0 sMissingField).netCalls = 0 := rfl
  have h2 : (AsyncDeepseekAPI.freshLogin net0 sMissingField).netCalls = 3 := rfl
  have h03 : (0 : Nat) ≠ 3 := by decide
  exact ⟨h1, rfl, h2,
    fun h => h03 ((h1.symm.trans (congrArg LoginOut.netCalls h)).trans h2)⟩

/-- C6 amended: a cached record that parses as a JSON object is consumed
by login even when session_id, auth_token or cookie is missing: login
returns normally with zero network calls and sets the Cookie header to
the record cookie value, which is null when that field is absent; no
fallback to a fresh login happens. -/
theorem login_object_cache_always_used (net : NetOracle) (s : ClientState)
    (fields : List (String × Json))
    (hapi : truthy s.apiKey = false)
    (hfile : s.credentialsFile = FileState.json (Json.obj fields)) :
    (AsyncDeepseekAPI.login net s).res = LoginRes.ok ∧
    (AsyncDeepseekAPI.login net s).netCalls = 0 ∧
    getKey (AsyncDeepseekAPI.login net s).state.headers "Cookie"
      = some ((getKey fields "cookie").getD Json.null) := by
  refine ⟨?_, ?_, ?_⟩ <;>
    simp [AsyncDeepseekAPI.login, hapi, hfile, getKey_setKey_self]

/-- C6 amended witness: the theorem applied to the concrete client
sMissingField. -/
theorem login_object_cache_always_used_witness :
    (AsyncDeepseekAPI.login net0 sMissingField).res = LoginRes.ok ∧
    (AsyncDeepseekAPI.login net0 sMissingField).netCalls = 0 ∧
    getKey (AsyncDeepseekAPI.login net0 sMissingField).state.headers "Cookie"
      = some ((getKey [("session_id", Json.str "sid"), ("auth_token", Json.str "tok")]
          "cookie").getD Json.null) :=
  login_object_cache_always_used net0 sMissingField
    [("session_id", Json.str "sid"), ("auth_token", Json.str "tok")] rfl rfl

/-- C4: the decoder yields exactly the payloads of the valid frames that
precede the first sentinel frame, in order, skipping empty, keep-alive
and malformed frames, and yields nothing at or after the sentinel. -/
theorem process_stream_response_spec (frames : List Frame) :
    process_stream_response frames
      = (frames.takeWhile (fun f => !isSentinel f)).filterMap frameJson := by
  induction frames with
  | nil => rfl
  | cons f rest ih =>
      cases f <;>
        simp [process_stream_response, isSentinel, frameJson, List.takeWhile, ih]

/-- Concrete run of the decoder on the synthetic sequence of section 8 of
the spec: one valid frame, an empty frame, a malformed frame, the
sentinel, then a further valid frame that is never yielded. -/
theorem process_stream_response_synthetic :
    process_stream_response
      [Frame.valid (Json.str "a"), Frame.empty, Frame.malformed, Frame.sentinel,
       Frame.valid (Json.str "b")] = [Json.str "a"] := rfl

/-- C7: a successful non-streamed send_message whose reply has the shape
choices[0].message.content = c appends exactly the user turn and then
the assistant turn with content c to the chat history, in that order. -/
theorem send_message_nonstream_appends (frames : List Frame)
    (message model : String) (kwargs : List (String × Json)) (s : ClientState)
    (reply c : Json)
    (hshape : reply = Json.obj [("choices",
        Json.arr [Json.obj [("message", Json.obj [("content", c)])]])]) :
    (AsyncDeepseekAPI.send_message reply frames message model false kwargs s).res
      = SendRes.reply reply ∧
    (AsyncDeepseekAPI.send_message reply frames message model false kwargs s).state.chatHistory
      = s.chatHistory
        ++ [Json.obj [("role", Json.str "user"), ("content", Json.str message)],
            Json.obj [("role", Json.str "assistant"), ("content", c)]] := by
  subst hshape
  refine ⟨?_, ?_⟩ <;> simp [AsyncDeepseekAPI.send_message, extractContent, getKey]

/-- C7 witness: the theorem applied to an empty prior history and the
mocked reply with content "hi". -/
theorem send_message_nonstream_appends_witness :
    (AsyncDeepseekAPI.send_message
        (Json.obj [("choices", Json.arr [Json.obj [("message",
          Json.obj [("content", Json.str "hi")])]])])
        [] "hello" "deepseek-chat" false [] baseState).state.chatHistory
      = [Json.obj [("role", Json.str "user"), ("content", Json.str "hello")],
         Json.obj [("role", Json.str "assistant"), ("content", Json.str "hi")]] :=
  (send_message_nonstream_appends [] "hello" "deepseek-chat" [] baseState
    (Json.obj [("choices", Json.arr [Json.obj [("message",
      Json.obj [("content", Json.str "hi")])]])]) (Json.str "hi") rfl).2

/-- C8: a streamed send_message leaves the chat history exactly as it was:
neither a user turn nor an assistant turn is appended. -/
theorem send_message_stream_preserves_history (reply : Json) (frames : List Frame)
    (message model : String) (kwargs : List (String × Json)) (s : ClientState) :
    (AsyncDeepseekAPI.send_message reply frames message model true kwargs s).state.chatHistory
      = s.chatHistory := by
  simp [AsyncDeepseekAPI.send_message]

/-- C9: a credentials record written by the fresh-login save is parsed
back by a subsequent cache load to an equal record. -/
theorem credentials_roundtrip (c : Credentials) :
    Option.bind (loadCredentialsFile (saveCredentials c)) credsFromJson = some c := by
  simp [saveCredentials, loadCredentialsFile, credsFromJson, credsToJson, getKey]

theorem runOp_eq (net : NetOracle) (s : ClientState) (op : Op) :
    AsyncDeepseekAPI.runOp net s op = SyncDeepseekAPI.runOp net s op := by
  cases op <;> rfl

/-- C10: the blocking and the non-blocking facade are observably
equivalent: on any configuration, network oracle and sequence of login,
get_models and send_message operations they produce the same trace of
results, network call counts, request payloads, headers and history
updates, and end in the same state. -/
theorem sync_async_equivalence (net : NetOracle) (s : ClientState) (ops : List Op) :
    AsyncDeepseekAPI.runOps net s ops = SyncDeepseekAPI.runOps net s ops := by
  induction ops generalizing s with
  | nil => rfl
  | cons op rest ih =>
      simp [AsyncDeepseekAPI.runOps, SyncDeepseekAPI.runOps, runOp_eq, ih]

end DeepseekApi
